import Mathlib

set_option linter.unusedVariables false

/-!
Shallow embedding of the multi-source job aggregation pipeline of
`job_search.py` (class `JobSearcher`): the two source adapters
(`_search_jsearch_api`, `_search_adzuna_api`), the salary formatters
(`_format_salary_jsearch`, `_format_salary_adzuna`, `_format_salary`),
the sample data generator (`_generate_sample_jobs`), the normalizer
(`_clean_job_data`) and the aggregator (`search_jobs`), together with
the skill extractor (`extract_skills_from_resume`).

Modelling conventions:
* Python strings are Lean `String`s; a JSON field that may be absent is an
  `Option` (`none` = key absent, so `dict.get` falls back to its default).
* Salary numbers are `Int` (the code applies `int(...)` before formatting).
* Python truthiness of a credential string (`if self.rapidapi_key:`) is
  `none`/`""` falsy; truthiness of a numeric salary field is `none`/`0` falsy.
* Network responses and the random stream are explicit oracle arguments,
  so every function is a pure function of its inputs, as the code is a pure
  function of its inputs plus the wire responses and the RNG state.
* Observable effects (HTTP calls attempted, warnings shown) are returned as
  an explicit event list alongside the result.
-/

namespace JobSearch

/-- Python `f"{n:,}"` on a natural number: decimal digits with a comma
every three digits.  Fuel-based so it reduces by evaluation; the fuel `n`
is always sufficient since the value shrinks by a factor 1000 each step. -/
def commaNatAux : Nat → Nat → String
  | 0, n => toString n
  | fuel + 1, n =>
    if n < 1000 then toString n
    else commaNatAux fuel (n / 1000) ++ "," ++
      (if n % 1000 < 10 then "00" else if n % 1000 < 100 then "0" else "") ++
      toString (n % 1000)

/-- Python `f"{n:,}"` for `n : Nat`. -/
def commaNat (n : Nat) : String := commaNatAux n n

/-- Python `f"{i:,}"` for an integer (salaries pass through `int(...)`). -/
def commaInt (i : Int) : String :=
  if i < 0 then "-" ++ commaNat i.natAbs else commaNat i.natAbs

/-- Characters stripped by Python `str.strip(", ")`. -/
def isCommaSpace (c : Char) : Bool := c = ',' || c = ' '

/-- Python `s.strip(", ")`: remove leading and trailing commas/spaces. -/
def stripCommaSpace (s : String) : String :=
  String.mk (((s.data.dropWhile isCommaSpace).reverse.dropWhile isCommaSpace).reverse)

/-- Python string comparison `a <= b`: lexicographic on code points. -/
def pyCharsLe : List Char → List Char → Bool
  | [], _ => true
  | _ :: _, [] => false
  | a :: as, b :: bs =>
    if a.toNat < b.toNat then true
    else if b.toNat < a.toNat then false
    else pyCharsLe as bs

/-- Python `a <= b` on strings. -/
def pyStrLe (a b : String) : Bool := pyCharsLe a.data b.data

/-- Python `str.strip()`: trim leading and trailing whitespace. -/
def pyStrip (s : String) : String :=
  String.mk (((s.data.dropWhile Char.isWhitespace).reverse.dropWhile Char.isWhitespace).reverse)

/-- Python `str.split(',')` on the character list: split at every comma,
keeping empty segments. -/
def splitCommaChars : List Char → List (List Char)
  | [] => [[]]
  | c :: rest =>
    match splitCommaChars rest with
    | [] => []
    | g :: gs => if c = ',' then [] :: g :: gs else (c :: g) :: gs

/-- Python `str.split(',')`. -/
def pySplitComma (s : String) : List String := (splitCommaChars s.data).map String.mk

/-- Truthiness of a Python string held in an `Option` (`None` and `""` are
falsy): used for the credential checks in `search_jobs`. -/
def credTruthy : Option String → Bool
  | none => false
  | some s => s ≠ ""

/-- Truthiness of an optional numeric salary field (`None` and `0` are
falsy): the branch tests of both salary formatters. -/
def salTruthy : Option Int → Bool
  | none => false
  | some v => v ≠ 0

/-- One JSearch provider record: the fields `_search_jsearch_api` reads.
`none` models an absent key. -/
structure JsearchJob where
  job_title : Option String := none
  employer_name : Option String := none
  job_city : Option String := none
  job_state : Option String := none
  job_employment_type : Option String := none
  job_min_salary : Option Int := none
  job_max_salary : Option Int := none
  job_salary_period : Option String := none
  job_posted_at_datetime_utc : Option String := none
  job_apply_link : Option String := none
  deriving Repr, DecidableEq

/-- One Adzuna provider record: the fields `_search_adzuna_api` reads
(`company.display_name` and `location.display_name` flattened, `none`
modelling an absent nested key). -/
structure AdzunaJob where
  title : Option String := none
  company_display_name : Option String := none
  location_display_name : Option String := none
  contract_type : Option String := none
  salary_min : Option Int := none
  salary_max : Option Int := none
  created : Option String := none
  redirect_url : Option String := none
  deriving Repr, DecidableEq

/-- `JobSearcher._format_salary_jsearch`: branch on truthiness of
`job_min_salary` / `job_max_salary`, period defaulting to `"year"`. -/
def format_salary_jsearch (job : JsearchJob) : String :=
  let period := job.job_salary_period.getD "year"
  match salTruthy job.job_min_salary, salTruthy job.job_max_salary,
        job.job_min_salary, job.job_max_salary with
  | true, true, some mn, some mx =>
      "$" ++ commaInt mn ++ " - $" ++ commaInt mx ++ " per " ++ period
  | true, _, some mn, _ => "$" ++ commaInt mn ++ "+ per " ++ period
  | _, true, _, some mx => "Up to $" ++ commaInt mx ++ " per " ++ period
  | _, _, _, _ => "Salary not specified"

/-- `JobSearcher._format_salary_adzuna`: same truthiness precedence on
`salary_min` / `salary_max`, but the fixed suffix `"yearly"`. -/
def format_salary_adzuna (job : AdzunaJob) : String :=
  match salTruthy job.salary_min, salTruthy job.salary_max,
        job.salary_min, job.salary_max with
  | true, true, some mn, some mx =>
      "$" ++ commaInt mn ++ " - $" ++ commaInt mx ++ " yearly"
  | true, _, some mn, _ => "$" ++ commaInt mn ++ "+ yearly"
  | _, true, _, some mx => "Up to $" ++ commaInt mx ++ " yearly"
  | _, _, _, _ => "Salary not specified"

/-- One canonical job record: the eight-key dict literal built by both
adapters and by the sample generator. -/
structure JobRec where
  jobTitle : String
  company : String
  location : String
  jobType : String
  salary : String
  datePosted : String
  applyLink : String
  source : String
  deriving Repr, DecidableEq

/-- The record `_search_jsearch_api` builds from one provider job: `N/A`
defaults from `dict.get`, the location a comma-join of city and state
stripped of commas and spaces. -/
def jsearchRecord (j : JsearchJob) : JobRec where
  jobTitle := j.job_title.getD "N/A"
  company := j.employer_name.getD "N/A"
  location := stripCommaSpace (j.job_city.getD "" ++ ", " ++ j.job_state.getD "")
  jobType := j.job_employment_type.getD "N/A"
  salary := format_salary_jsearch j
  datePosted := j.job_posted_at_datetime_utc.getD "N/A"
  applyLink := j.job_apply_link.getD "N/A"
  source := "JSearch API"

/-- The record `_search_adzuna_api` builds from one provider job. -/
def adzunaRecord (j : AdzunaJob) : JobRec where
  jobTitle := j.title.getD "N/A"
  company := j.company_display_name.getD "N/A"
  location := j.location_display_name.getD "N/A"
  jobType := j.contract_type.getD "N/A"
  salary := format_salary_adzuna j
  datePosted := j.created.getD "N/A"
  applyLink := j.redirect_url.getD "N/A"
  source := "Adzuna API"

/-- Outcome of the single HTTP GET to the JSearch endpoint: a raised
network exception, or a status code with (when parsed) the `data` field of
the JSON body (`none` = key absent). -/
inductive JsearchResp where
  | netError
  | status (code : Nat) (data : Option (List JsearchJob))
  deriving Repr, DecidableEq

/-- Outcome of the single HTTP GET to the Adzuna endpoint, with the
`results` field of the JSON body. -/
inductive AdzunaResp where
  | netError
  | status (code : Nat) (results : Option (List AdzunaJob))
  deriving Repr, DecidableEq

/-- `JobSearcher._search_jsearch_api`: exceptions and non-200 statuses
yield `[]`; on 200 the first `results_wanted` entries of a present,
non-empty `data` array are mapped.  The query-building arguments
(`search_term`, `location`, `job_type`) shape only the request, so given
the response oracle they do not affect the returned records. -/
def search_jsearch_api (search_term location : String) (results_wanted : Nat)
    (job_type : Option String) (resp : JsearchResp) : List JobRec :=
  match resp with
  | .netError => []
  | .status code data =>
    if code = 200 then
      match data with
      | some jobs => if jobs.isEmpty then [] else (jobs.take results_wanted).map jsearchRecord
      | none => []
    else []

/-- `JobSearcher._search_adzuna_api`: exceptions and non-200 statuses
yield `[]`; on 200 EVERY entry of a present `results` array is mapped —
the loop has no `[:results_wanted]` slice, `results_wanted` only sets the
request's `results_per_page` parameter. -/
def search_adzuna_api (search_term location : String) (results_wanted : Nat)
    (job_type : Option String) (resp : AdzunaResp) : List JobRec :=
  match resp with
  | .netError => []
  | .status code results =>
    if code = 200 then
      match results with
      | some jobs => jobs.map adzunaRecord
      | none => []
    else []

/-- One draw of the per-record random choices in `_generate_sample_jobs`:
`random.choice` indices and `random.randint` offsets, reduced modulo their
ranges by the generator so that every stream is admissible. -/
structure SampleChoice where
  companyIdx : Nat := 0
  titleIdx : Nat := 0
  jobTypeIdx : Nat := 0
  salaryDraw : Nat := 0
  daysDraw : Nat := 0
  sourceIdx : Nat := 0
  deriving Repr, DecidableEq

/-- The fixed company roster of `_generate_sample_jobs`. -/
def sampleCompanies : List String :=
  ["Google", "Microsoft", "Amazon", "Apple", "Meta", "Netflix", "Tesla",
   "Spotify", "Airbnb", "Uber", "LinkedIn", "Twitter", "Adobe", "Salesforce",
   "Oracle", "IBM", "Intel", "NVIDIA", "Cisco", "VMware"]

/-- The ten title templates of `_generate_sample_jobs`. -/
def sampleTitles (search_term : String) : List String :=
  ["Senior " ++ search_term, "Junior " ++ search_term, search_term ++ " Specialist",
   "Lead " ++ search_term, search_term ++ " Manager", search_term ++ " Analyst",
   search_term ++ " Developer", search_term ++ " Engineer",
   "Principal " ++ search_term, search_term ++ " Consultant"]

/-- The four job types drawn when no filter applies. -/
def sampleJobTypes : List String := ["Full-time", "Part-time", "Contract", "Internship"]

/-- The four provenance labels the sample generator draws from. -/
def sampleSources : List String := ["LinkedIn", "Indeed", "ZipRecruiter", "Company Website"]

/-- `JobSearcher._generate_sample_jobs`: `min(results_wanted, 20)` records
with randomized company/title/type/salary/date/source; the job-type filter
applies when it is truthy and not `"Any"`; the salary is a yearly range
spanning +20000 from a base in [60000, 150000]; the date a 1–7 days-ago
string. -/
def generate_sample_jobs (search_term location : String) (results_wanted : Nat)
    (job_type : Option String) (rnd : Nat → SampleChoice) : List JobRec :=
  (List.range (min results_wanted 20)).map fun i =>
    let c := rnd i
    let company := sampleCompanies.getD (c.companyIdx % 20) ""
    let title := (sampleTitles search_term).getD (c.titleIdx % 10) ""
    let selectedType :=
      match job_type with
      | some t => if t ≠ "" ∧ t ≠ "Any" then t else sampleJobTypes.getD (c.jobTypeIdx % 4) ""
      | none => sampleJobTypes.getD (c.jobTypeIdx % 4) ""
    let base := 60000 + c.salaryDraw % 90001
    { jobTitle := title
      company := company
      location := location
      jobType := selectedType
      salary := "$" ++ commaNat base ++ " - $" ++ commaNat (base + 20000) ++ " yearly"
      datePosted := toString (1 + c.daysDraw % 7) ++ " days ago"
      applyLink := "https://example.com/jobs/" ++ company.toLower ++ "-" ++ toString i
      source := sampleSources.getD (c.sourceIdx % 4) "" }

/-- A frame row: association list from column name to cell value.  A
missing key models a `NaN` cell.  Every value this module stores in a
frame is a string, so cells are strings. -/
abbrev Row := List (String × String)

/-- A pandas DataFrame as this module uses one: the column-name list plus
index-labelled rows. -/
structure DF where
  cols : List String
  rows : List (Nat × Row)
  deriving Repr, DecidableEq

/-- Cell lookup (first binding wins, as dict keys are unique). -/
def rowGet (r : Row) (k : String) : Option String :=
  (r.find? (fun kv => kv.1 = k)).map Prod.snd

/-- `pd.DataFrame(list_of_dicts)`: columns are the union of the dicts'
keys in first-appearance order; the index is 0..n-1. -/
def dfOfRows (rs : List Row) : DF where
  cols := rs.foldl (fun acc r => acc ++ (r.map Prod.fst).filter (fun k => k ∉ acc)) []
  rows := rs.enum

/-- The eight-key dict an adapter or the sample generator appends. -/
def jobRecRow (j : JobRec) : Row :=
  [("Job Title", j.jobTitle), ("Company", j.company), ("Location", j.location),
   ("Job Type", j.jobType), ("Salary", j.salary), ("Date Posted", j.datePosted),
   ("Apply Link", j.applyLink), ("Source", j.source)]

/-- The canonical output column order (the values of `display_columns`). -/
def canonicalCols : List String :=
  ["Job Title", "Company", "Location", "Job Type", "Salary", "Date Posted",
   "Apply Link", "Source"]

/-- The `display_columns` rename table of `_clean_job_data`. -/
def displayColumns : List (String × String) :=
  [("title", "Job Title"), ("company", "Company"), ("location", "Location"),
   ("job_type", "Job Type"), ("salary", "Salary"), ("date_posted", "Date Posted"),
   ("job_url", "Apply Link"), ("site", "Source")]

/-- Column assignment `df[col] = f(row)` (scalar assignment or
`apply(axis=1)`): a new column name is appended, an existing one keeps its
place; every row gets the computed cell. -/
def dfSetCol (df : DF) (col : String) (f : Row → String) : DF where
  cols := if col ∈ df.cols then df.cols else df.cols ++ [col]
  rows := df.rows.map fun p => (p.1, p.2.filter (fun kv => kv.1 ≠ col) ++ [(col, f p.2)])

/-- `JobSearcher._format_salary` on one frame row: `pd.isna` is key
absence; `int(...)` on a string cell is Python integer parsing, which
raises (caught, yielding `'Not specified'`) unless the cell is a decimal
numeral. -/
def format_salary_row (r : Row) : String :=
  let interval := (rowGet r "interval").getD "yearly"
  match rowGet r "min_amount", rowGet r "max_amount" with
  | none, none => "Not specified"
  | some mns, some mxs =>
    match mns.toInt?, mxs.toInt? with
    | some mn, some mx =>
      if mn = mx then "$" ++ commaInt mn ++ " " ++ interval
      else "$" ++ commaInt mn ++ " - $" ++ commaInt mx ++ " " ++ interval
    | _, _ => "Not specified"
  | some mns, none =>
    match mns.toInt? with
    | some mn => "$" ++ commaInt mn ++ "+ " ++ interval
    | none => "Not specified"
  | none, some mxs =>
    match mxs.toInt? with
    | some mx => "Up to $" ++ commaInt mx ++ " " ++ interval
    | none => "Not specified"

/-- How a cell renders inside an f-string via `Series.get`: a `NaN` cell
(the label exists once the column does) renders as `"nan"`. -/
def cellDisp : Option String → String
  | some s => s
  | none => "nan"

/-- Rename a column name through the `available_columns` mapping. -/
def renameKey (avail : List (String × String)) (k : String) : String :=
  match avail.find? (fun p => p.1 = k) with
  | some p => p.2
  | none => k

/-- `df.rename(columns=avail)`. -/
def dfRename (df : DF) (avail : List (String × String)) : DF where
  cols := df.cols.map (renameKey avail)
  rows := df.rows.map fun p => (p.1, p.2.map fun kv => (renameKey avail kv.1, kv.2))

/-- Column selection `df[cs]`: the listed columns in the listed order. -/
def dfSelect (df : DF) (cs : List String) : DF where
  cols := cs
  rows := df.rows.map fun p =>
    (p.1, cs.filterMap fun c => (rowGet p.2 c).map fun v => (c, v))

/-- The `(Job Title, Company)` key `drop_duplicates` compares (`NaN`
compares equal to `NaN` there, as `none = none` does here). -/
def dedupKey (r : Row) : Option String × Option String :=
  (rowGet r "Job Title", rowGet r "Company")

/-- `drop_duplicates(subset=['Job Title', 'Company'])`: keep the first row
of each key. -/
def dedupRows : List (Option String × Option String) → List (Nat × Row) → List (Nat × Row)
  | _, [] => []
  | seen, p :: ps =>
    if dedupKey p.2 ∈ seen then dedupRows seen ps
    else p :: dedupRows (dedupKey p.2 :: seen) ps

/-- The sort key of `sort_values('Date Posted', ascending=False)`. -/
def dateKey (p : Nat × Row) : Option String := rowGet p.2 "Date Posted"

/-- `a` may precede `b` in the descending date order: lexicographically
larger strings first, `NaN` dates last. -/
def dateGeB (a b : Nat × Row) : Bool :=
  match dateKey a, dateKey b with
  | some x, some y => pyStrLe y x
  | some _, none => true
  | none, some _ => false
  | none, none => true

/-- Propositional form of the descending date order. -/
def dateGe (a b : Nat × Row) : Prop := dateGeB a b = true

instance : DecidableRel dateGe := fun a b =>
  inferInstanceAs (Decidable (dateGeB a b = true))

/-- `reset_index(drop=True)`: renumber the index densely from 0. -/
def resetIndex (df : DF) : DF where
  cols := df.cols
  rows := df.rows.enum.map fun p => (p.1, p.2.2)

/-- `JobSearcher._clean_job_data`: synthesize a `salary` column when no
`Salary` column exists, rebuild `location` from `city`/`state` when both
exist, rename the lowercase source columns to display names, select the
present display columns in canonical order, drop duplicate
`(Job Title, Company)` rows keeping the first, sort descending by the raw
`Date Posted` string, and reset the index.  There is no missing-cell fill
step. -/
def clean_job_data (df : DF) : DF :=
  let df1 :=
    if "Salary" ∈ df.cols then df
    else if "min_amount" ∈ df.cols ∧ "max_amount" ∈ df.cols then
      dfSetCol df "salary" format_salary_row
    else dfSetCol df "salary" (fun _ => "Not specified")
  let df2 :=
    if "city" ∈ df1.cols ∧ "state" ∈ df1.cols then
      dfSetCol df1 "location" fun r =>
        stripCommaSpace (cellDisp (rowGet r "city") ++ ", " ++ cellDisp (rowGet r "state"))
    else df1
  let avail := displayColumns.filter fun p => p.1 ∈ df2.cols
  let df3 := dfRename df2 avail
  let finalCols := (displayColumns.map Prod.snd).filter fun c => c ∈ df3.cols
  let df4 := dfSelect df3 finalCols
  let df5 :=
    if "Job Title" ∈ df4.cols ∧ "Company" ∈ df4.cols then
      { df4 with rows := dedupRows [] df4.rows }
    else df4
  let df6 :=
    if "Date Posted" ∈ df5.cols then
      { df5 with rows := List.insertionSort dateGe df5.rows }
    else df5
  resetIndex df6

/-- The observable effects of one `search_jobs` call: HTTP requests
attempted and warnings shown. -/
inductive Event where
  | jsearchCall
  | adzunaCall
  | sampleGen
  | warnNoApiKeys
  | warnNoJobs
  deriving Repr, DecidableEq

/-- The credential state read in `JobSearcher.__init__` from the
environment (`None` when a variable is unset). -/
structure Credentials where
  rapidapi_key : Option String := none
  adzuna_app_id : Option String := none
  adzuna_app_key : Option String := none
  deriving Repr, DecidableEq

/-- The JSearch step of `search_jobs`: called only when the RapidAPI key
is truthy, asked for `min(results_wanted, 10)` records. -/
def jsearchPhase (cfg : Credentials) (search_term location : String)
    (results_wanted : Nat) (job_type : Option String)
    (js : JsearchResp) : List JobRec × List Event :=
  if credTruthy cfg.rapidapi_key then
    (search_jsearch_api search_term location (min results_wanted 10) job_type js,
      [Event.jsearchCall])
  else ([], [])

/-- The adapter fan-out phase of `search_jobs`: the JSearch step, then
Adzuna when both its credentials are truthy and the budget is not yet
met, asked for `min(remaining, 10)`. -/
def adapterPhase (cfg : Credentials) (search_term location : String)
    (results_wanted : Nat) (job_type : Option String)
    (js : JsearchResp) (adz : AdzunaResp) : List JobRec × List Event :=
  let jp := jsearchPhase cfg search_term location results_wanted job_type js
  let jsJobs := jp.1
  let ev1 := jp.2
  if credTruthy cfg.adzuna_app_id ∧ credTruthy cfg.adzuna_app_key ∧
      jsJobs.length < results_wanted then
    (jsJobs ++
      search_adzuna_api search_term location (min (results_wanted - jsJobs.length) 10)
        job_type adz,
      ev1 ++ [Event.adzunaCall])
  else (jsJobs, ev1)

/-- `JobSearcher.search_jobs`: adapter fan-out; when it produced nothing,
warn if no provider is configured and fall back to sample data; when
still nothing (a zero budget), warn and return an empty frame; otherwise
build a frame from the records and normalize it. -/
def search_jobs (cfg : Credentials) (search_term location : String)
    (results_wanted : Nat) (job_type : Option String)
    (js : JsearchResp) (adz : AdzunaResp) (rnd : Nat → SampleChoice) :
    DF × List Event :=
  let ap := adapterPhase cfg search_term location results_wanted job_type js adz
  let adapterJobs := ap.1
  let ev := ap.2
  let fb :=
    if adapterJobs.isEmpty then
      let warn :=
        if ¬ credTruthy cfg.rapidapi_key ∧
            ¬ (credTruthy cfg.adzuna_app_id ∧ credTruthy cfg.adzuna_app_key) then
          [Event.warnNoApiKeys]
        else []
      (generate_sample_jobs search_term location results_wanted job_type rnd,
        ev ++ warn ++ [Event.sampleGen])
    else (adapterJobs, ev)
  let allJobs := fb.1
  let ev2 := fb.2
  if allJobs.isEmpty then (⟨[], []⟩, ev2 ++ [Event.warnNoJobs])
  else (clean_job_data (dfOfRows (allJobs.map jobRecRow)), ev2)

/-- The row restriction `_clean_job_data`'s column selection performs on a
frame whose columns are already the canonical eight: keep the canonical
cells, in canonical order, dropping `NaN`s. -/
def selectCanonical (r : Row) : Row :=
  canonicalCols.filterMap fun c => (rowGet r c).map fun v => (c, v)

/-- Result of the one chat-completion call `extract_skills_from_resume`
makes: a raised exception, or a message whose `content` may be `None`. -/
inductive LlmResult where
  | err
  | ok (content : Option String)
  deriving Repr, DecidableEq

/-- `JobSearcher.extract_skills_from_resume`: the prompt embeds
`resume_text` and the completion call is made unconditionally (the `Bool`
component records that invocation); the response is split on commas,
trimmed, cleared of empties and truncated to 15. -/
def extract_skills_from_resume (resp : LlmResult) (resume_text : String) :
    List String × Bool :=
  match resp with
  | .err => ([], true)
  | .ok none => ([], true)
  | .ok (some content) =>
    if content = "" then ([], true)
    else
      (((pySplitComma (pyStrip content)).map pyStrip).filter (· ≠ "") |>.take 15, true)

end JobSearch

-- Sanity checks of the formatters on the spec's worked examples.
example : JobSearch.commaNat 80000 = "80,000" := by decide
example : JobSearch.format_salary_jsearch
    { job_min_salary := some 80000, job_max_salary := some 120000,
      job_salary_period := some "year" } = "$80,000 - $120,000 per year" := by decide
example : JobSearch.format_salary_jsearch
    { job_min_salary := some 80000 } = "$80,000+ per year" := by decide
example : JobSearch.format_salary_jsearch {} = "Salary not specified" := by decide
example : JobSearch.format_salary_adzuna
    { salary_min := some 80000, salary_max := some 120000 } =
      "$80,000 - $120,000 yearly" := by decide

namespace JobSearch

/-! ### List helper lemmas -/

theorem getD_mem_of_lt {α : Type _} (l : List α) (i : Nat) (d : α)
    (h : i < l.length) : l.getD i d ∈ l := by
  rw [List.getD_eq_getElem l d h]
  exact List.getElem_mem h

theorem mem_enumFrom_snd {α : Type _} {p : Nat × α} :
    ∀ {n : Nat} {l : List α}, p ∈ l.enumFrom n → p.2 ∈ l := by
  intro n l
  induction l generalizing n with
  | nil => intro h; simp [List.enumFrom] at h
  | cons x xs ih =>
    intro h
    rcases List.mem_cons.mp h with rfl | h
    · exact List.mem_cons_self _ _
    · exact List.mem_cons_of_mem _ (ih h)

theorem mem_enum_snd {α : Type _} {p : Nat × α} {l : List α}
    (h : p ∈ l.enum) : p.2 ∈ l :=
  mem_enumFrom_snd h

theorem pairwise_enumFrom {α : Type _} {S : α → α → Prop} :
    ∀ {l : List α} {n : Nat}, l.Pairwise S →
      (l.enumFrom n).Pairwise fun a b => S a.2 b.2 := by
  intro l
  induction l with
  | nil => intro n _; simp [List.enumFrom]
  | cons x xs ih =>
    intro n h
    rcases List.pairwise_cons.mp h with ⟨hx, hxs⟩
    refine List.pairwise_cons.mpr ⟨?_, ih hxs⟩
    intro b hb
    exact hx b.2 (mem_enumFrom_snd hb)

/-! ### Deduplication lemmas -/

theorem dedupRows_sublist (seen : List (Option String × Option String))
    (l : List (Nat × Row)) : (dedupRows seen l).Sublist l := by
  induction l generalizing seen with
  | nil => simp [dedupRows]
  | cons p ps ih =>
    simp only [dedupRows]
    split
    · exact (ih seen).cons p
    · exact (ih _).cons₂ p

theorem dedupRows_key_not_seen (seen : List (Option String × Option String))
    (l : List (Nat × Row)) :
    ∀ p ∈ dedupRows seen l, dedupKey p.2 ∉ seen := by
  induction l generalizing seen with
  | nil => simp [dedupRows]
  | cons q qs ih =>
    simp only [dedupRows]
    split
    · exact ih seen
    · intro p hp
      rcases List.mem_cons.mp hp with rfl | hp
      · assumption
      · intro hs
        exact ih _ p hp (List.mem_cons_of_mem _ hs)

theorem dedupRows_pairwise (seen : List (Option String × Option String))
    (l : List (Nat × Row)) :
    (dedupRows seen l).Pairwise fun a b => dedupKey a.2 ≠ dedupKey b.2 := by
  induction l generalizing seen with
  | nil => simp [dedupRows]
  | cons q qs ih =>
    simp only [dedupRows]
    split
    · exact ih seen
    · refine List.pairwise_cons.mpr ⟨?_, ih _⟩
      intro b hb heq
      exact dedupRows_key_not_seen _ _ b hb (heq ▸ List.mem_cons_self _ _)

theorem dedupRows_first (seen : List (Option String × Option String))
    (l : List (Nat × Row)) :
    ∀ p ∈ dedupRows seen l,
      (l.filter fun q => decide (dedupKey q.2 = dedupKey p.2)).head? = some p := by
  induction l generalizing seen with
  | nil => simp [dedupRows]
  | cons q qs ih =>
    simp only [dedupRows]
    split
    · intro p hp
      have hkp := dedupRows_key_not_seen seen qs p hp
      have hne : ¬ dedupKey q.2 = dedupKey p.2 := fun h => hkp (h ▸ ‹dedupKey q.2 ∈ seen›)
      rw [List.filter_cons]
      simp only [hne, decide_False, if_false]
      exact ih seen p hp
    · intro p hp
      rcases List.mem_cons.mp hp with rfl | hp
      · rw [List.filter_cons]
        simp
      · have hkp := dedupRows_key_not_seen _ qs p hp
        have hne : ¬ dedupKey q.2 = dedupKey p.2 :=
          fun h => hkp (h ▸ List.mem_cons_self _ _)
        rw [List.filter_cons]
        simp only [hne, decide_False, if_false]
        exact ih _ p hp

end JobSearch

namespace JobSearch

/-! ### The descending date order is total and transitive -/

theorem pyCharsLe_total (a b : List Char) :
    pyCharsLe a b = true ∨ pyCharsLe b a = true := by
  induction a generalizing b with
  | nil => left; simp [pyCharsLe]
  | cons x xs ih =>
    cases b with
    | nil => right; simp [pyCharsLe]
    | cons y ys =>
      simp only [pyCharsLe]
      by_cases h1 : x.toNat < y.toNat
      · left; simp [h1]
      · by_cases h2 : y.toNat < x.toNat
        · right; simp [h1, h2]
        · simpa [h1, h2] using ih ys

theorem pyCharsLe_trans {a b c : List Char} (h1 : pyCharsLe a b = true)
    (h2 : pyCharsLe b c = true) : pyCharsLe a c = true := by
  induction a generalizing b c with
  | nil => simp [pyCharsLe]
  | cons x xs ih =>
    cases b with
    | nil => simp [pyCharsLe] at h1
    | cons y ys =>
      cases c with
      | nil => simp [pyCharsLe] at h2
      | cons z zs =>
        simp only [pyCharsLe] at h1 h2 ⊢
        rcases Nat.lt_trichotomy x.toNat y.toNat with hxy | hxy | hxy
        · rcases Nat.lt_trichotomy y.toNat z.toNat with hyz | hyz | hyz
          · simp [hxy.trans hyz]
          · simp [hyz ▸ hxy]
          · simp [Nat.lt_asymm hyz, hyz] at h2
        · rcases Nat.lt_trichotomy y.toNat z.toNat with hyz | hyz | hyz
          · simp [hxy ▸ hyz]
          · have hxz : ¬ x.toNat < z.toNat := by omega
            have hzx : ¬ z.toNat < x.toNat := by omega
            simp only [show ¬ x.toNat < y.toNat by omega,
              show ¬ y.toNat < x.toNat by omega, if_false] at h1
            simp only [show ¬ y.toNat < z.toNat by omega,
              show ¬ z.toNat < y.toNat by omega, if_false] at h2
            simp only [hxz, hzx, if_false]
            exact ih h1 h2
          · simp [Nat.lt_asymm hyz, hyz] at h2
        · simp [Nat.lt_asymm hxy, hxy] at h1

theorem dateGeB_total (a b : Nat × Row) : dateGeB a b = true ∨ dateGeB b a = true := by
  unfold dateGeB
  rcases dateKey a with _ | x <;> rcases dateKey b with _ | y <;> simp [pyStrLe]
  exact pyCharsLe_total y.data x.data

theorem dateGeB_trans {a b c : Nat × Row} :
    dateGeB a b = true → dateGeB b c = true → dateGeB a c = true := by
  unfold dateGeB
  cases hA : dateKey a <;> cases hB : dateKey b <;> cases hC : dateKey c <;>
    simp [pyStrLe]
  exact fun h1 h2 => pyCharsLe_trans h2 h1

instance : IsTotal (Nat × Row) dateGe :=
  ⟨fun a b => dateGeB_total a b⟩

instance : IsTrans (Nat × Row) dateGe :=
  ⟨fun _ _ _ h1 h2 => dateGeB_trans h1 h2⟩

end JobSearch

namespace JobSearch

/-! ### The normalizer on frames with the canonical columns -/

theorem clean_job_data_canonical (rows : List (Nat × Row)) :
    clean_job_data ⟨canonicalCols, rows⟩ =
      resetIndex ⟨canonicalCols, List.insertionSort dateGe (dedupRows []
        ((rows.map fun p => (p.1, p.2.map fun kv => (renameKey [] kv.1, kv.2))).map
          fun p => (p.1, selectCanonical p.2)))⟩ := rfl

theorem renameKey_nil_id :
    (fun kv : String × String => (renameKey [] kv.1, kv.2)) = id := rfl

theorem clean_job_data_canonical_rows (rows : List (Nat × Row)) :
    clean_job_data ⟨canonicalCols, rows⟩ =
      resetIndex ⟨canonicalCols, List.insertionSort dateGe (dedupRows []
        (rows.map fun p => (p.1, selectCanonical p.2)))⟩ := by
  rw [clean_job_data_canonical, renameKey_nil_id]
  simp [List.map_map, Function.comp]

theorem clean_job_data_canonical_cols (rows : List (Nat × Row)) :
    (clean_job_data ⟨canonicalCols, rows⟩).cols = canonicalCols := rfl

theorem resetIndex_rows_length (df : DF) :
    (resetIndex df).rows.length = df.rows.length := by
  simp [resetIndex, List.enum_length]

theorem clean_job_data_canonical_length (rows : List (Nat × Row)) :
    (clean_job_data ⟨canonicalCols, rows⟩).rows.length ≤ rows.length := by
  rw [clean_job_data_canonical_rows, resetIndex_rows_length]
  calc (List.insertionSort dateGe (dedupRows []
          (rows.map fun p => (p.1, selectCanonical p.2)))).length
      = (dedupRows [] (rows.map fun p => (p.1, selectCanonical p.2))).length :=
        (List.perm_insertionSort dateGe _).length_eq
    _ ≤ (rows.map fun p => (p.1, selectCanonical p.2)).length :=
        (dedupRows_sublist _ _).length_le
    _ = rows.length := List.length_map _ _

theorem mem_resetIndex {df : DF} {p : Nat × Row}
    (h : p ∈ (resetIndex df).rows) : ∃ q ∈ df.rows, p.2 = q.2 := by
  simp only [resetIndex] at h
  rcases List.mem_map.mp h with ⟨q, hq, rfl⟩
  exact ⟨q.2, mem_enum_snd hq, rfl⟩

theorem resetIndex_map_fst (df : DF) :
    (resetIndex df).rows.map Prod.fst = List.range (resetIndex df).rows.length := by
  simp only [resetIndex, List.map_map]
  rw [show (Prod.fst ∘ fun p : Nat × (Nat × Row) => (p.1, p.2.2)) = Prod.fst from rfl,
    List.enum_map_fst, List.length_map, List.enum_length]

theorem resetIndex_pairwise {R : Nat × Row → Nat × Row → Prop}
    (hR : ∀ (a b : Nat × Row) (i j : Nat), R a b → R (i, a.2) (j, b.2)) {df : DF}
    (h : df.rows.Pairwise R) : (resetIndex df).rows.Pairwise R := by
  simp only [resetIndex]
  exact List.Pairwise.map _ (fun a b hab => hR a.2 b.2 a.1 b.1 hab) (pairwise_enumFrom h)

/-! ### The full pipeline on frames built from canonical job records -/

theorem foldl_cols_const (js : List JobRec) :
    (js.map jobRecRow).foldl
      (fun acc r => acc ++ (r.map Prod.fst).filter (fun k => k ∉ acc)) canonicalCols
      = canonicalCols := by
  induction js with
  | nil => rfl
  | cons j js ih =>
    simp only [List.map_cons, List.foldl_cons]
    rw [show (canonicalCols ++
      ((jobRecRow j).map Prod.fst).filter (fun k => k ∉ canonicalCols)) = canonicalCols
      from rfl]
    exact ih

theorem dfOfRows_jobRecRow (recs : List JobRec) (h : recs ≠ []) :
    dfOfRows (recs.map jobRecRow) = ⟨canonicalCols, (recs.map jobRecRow).enum⟩ := by
  obtain ⟨j, js, rfl⟩ := List.exists_cons_of_ne_nil h
  simp only [dfOfRows]
  congr 1
  simp only [List.map_cons, List.foldl_cons]
  rw [show ([] ++ ((jobRecRow j).map Prod.fst).filter
    (fun k => k ∉ ([] : List String))) = canonicalCols from rfl]
  exact foldl_cols_const js

theorem selectCanonical_jobRecRow (j : JobRec) :
    selectCanonical (jobRecRow j) = jobRecRow j := rfl

theorem clean_jobRec_eq (recs : List JobRec) (h : recs ≠ []) :
    clean_job_data (dfOfRows (recs.map jobRecRow)) =
      resetIndex ⟨canonicalCols, List.insertionSort dateGe
        (dedupRows [] ((recs.map jobRecRow).enum))⟩ := by
  rw [dfOfRows_jobRecRow recs h, clean_job_data_canonical_rows]
  have e : (recs.map jobRecRow).enum.map
      (fun p : Nat × Row => (p.1, selectCanonical p.2)) = (recs.map jobRecRow).enum := by
    have hptw : ∀ p ∈ (recs.map jobRecRow).enum,
        (fun p : Nat × Row => (p.1, selectCanonical p.2)) p = id p := by
      intro p hp
      obtain ⟨j2, _, hj2⟩ := List.mem_map.mp (mem_enum_snd hp)
      simp only [id_eq]
      rw [← hj2, selectCanonical_jobRecRow, hj2]
    rw [List.map_congr_left hptw, List.map_id]
  rw [e]

theorem clean_jobRec_cols (recs : List JobRec) (h : recs ≠ []) :
    (clean_job_data (dfOfRows (recs.map jobRecRow))).cols = canonicalCols := by
  rw [clean_jobRec_eq recs h]
  rfl

theorem clean_jobRec_length (recs : List JobRec) (h : recs ≠ []) :
    (clean_job_data (dfOfRows (recs.map jobRecRow))).rows.length ≤ recs.length := by
  rw [clean_jobRec_eq recs h, resetIndex_rows_length]
  calc (List.insertionSort dateGe (dedupRows [] ((recs.map jobRecRow).enum))).length
      = (dedupRows [] ((recs.map jobRecRow).enum)).length :=
        (List.perm_insertionSort dateGe _).length_eq
    _ ≤ ((recs.map jobRecRow).enum).length := (dedupRows_sublist _ _).length_le
    _ = recs.length := by rw [List.enum_length, List.length_map]

theorem clean_jobRec_mem (recs : List JobRec) (h : recs ≠ []) :
    ∀ p ∈ (clean_job_data (dfOfRows (recs.map jobRecRow))).rows,
      ∃ j ∈ recs, p.2 = jobRecRow j := by
  rw [clean_jobRec_eq recs h]
  intro p hp
  obtain ⟨q, hq, hpq⟩ := mem_resetIndex hp
  have hq1 : q ∈ dedupRows [] ((recs.map jobRecRow).enum) :=
    (List.perm_insertionSort dateGe _).mem_iff.mp hq
  have hq2 : q ∈ (recs.map jobRecRow).enum := (dedupRows_sublist _ _).subset hq1
  obtain ⟨j, hj, hjq⟩ := List.mem_map.mp (mem_enum_snd hq2)
  exact ⟨j, hj, by rw [hpq, ← hjq]⟩

end JobSearch

namespace JobSearch

/-! ### Adapter and aggregator bounds -/

theorem search_jsearch_api_length_le (t l : String) (n : Nat) (jt : Option String)
    (js : JsearchResp) : (search_jsearch_api t l n jt js).length ≤ n := by
  cases js with
  | netError => simp [search_jsearch_api]
  | status code data =>
    simp only [search_jsearch_api]
    split
    · cases data with
      | none => simp
      | some jobs =>
        simp only []
        split
        · simp
        · simp only [List.length_map]
          exact List.length_take_le _ _
    · simp

theorem jsearchPhase_length_le (cfg : Credentials) (t l : String) (n : Nat)
    (jt : Option String) (js : JsearchResp) :
    (jsearchPhase cfg t l n jt js).1.length ≤ n := by
  simp only [jsearchPhase]
  split
  · exact le_trans (search_jsearch_api_length_le t l (min n 10) jt js) (min_le_left _ _)
  · simp

theorem adapterPhase_length_le (cfg : Credentials) (t l : String) (n : Nat)
    (jt : Option String) (js : JsearchResp) (adz : AdzunaResp)
    (hadz : (search_adzuna_api t l
        (min (n - (jsearchPhase cfg t l n jt js).1.length) 10) jt adz).length ≤
      min (n - (jsearchPhase cfg t l n jt js).1.length) 10) :
    (adapterPhase cfg t l n jt js adz).1.length ≤ n := by
  have hjs := jsearchPhase_length_le cfg t l n jt js
  simp only [adapterPhase]
  split
  · next hcond =>
    simp only [List.length_append]
    have h3 : min (n - (jsearchPhase cfg t l n jt js).1.length) 10 ≤
        n - (jsearchPhase cfg t l n jt js).1.length := min_le_left _ _
    omega
  · exact hjs

/-! ### The sample generator -/

theorem generate_sample_jobs_length (t l : String) (n : Nat) (jt : Option String)
    (rnd : Nat → SampleChoice) :
    (generate_sample_jobs t l n jt rnd).length = min n 20 := by
  simp [generate_sample_jobs]

theorem generate_sample_jobs_ne_nil (t l : String) (n : Nat) (jt : Option String)
    (rnd : Nat → SampleChoice) (hn : 0 < n) :
    generate_sample_jobs t l n jt rnd ≠ [] := by
  intro h
  have hlen := generate_sample_jobs_length t l n jt rnd
  rw [h] at hlen
  simp at hlen
  omega

theorem generate_sample_jobs_source (t l : String) (n : Nat) (jt : Option String)
    (rnd : Nat → SampleChoice) :
    ∀ j ∈ generate_sample_jobs t l n jt rnd, j.source ∈ sampleSources := by
  intro j hj
  simp only [generate_sample_jobs, List.mem_map] at hj
  obtain ⟨i, _, rfl⟩ := hj
  refine getD_mem_of_lt _ _ _ ?_
  have : (rnd i).sourceIdx % 4 < 4 := Nat.mod_lt _ (by norm_num)
  simpa [sampleSources] using this

/-! ### Case analysis of the aggregator -/

theorem search_jobs_result (cfg : Credentials) (t l : String) (n : Nat)
    (jt : Option String) (js : JsearchResp) (adz : AdzunaResp)
    (rnd : Nat → SampleChoice) (hn : 0 < n) :
    ∃ recs : List JobRec, recs ≠ [] ∧
      (recs = (adapterPhase cfg t l n jt js adz).1 ∨
        recs = generate_sample_jobs t l n jt rnd) ∧
      (search_jobs cfg t l n jt js adz rnd).1 =
        clean_job_data (dfOfRows (recs.map jobRecRow)) := by
  simp only [search_jobs]
  by_cases hA : (adapterPhase cfg t l n jt js adz).1.isEmpty
  · have hne := generate_sample_jobs_ne_nil t l n jt rnd hn
    have hS : (generate_sample_jobs t l n jt rnd).isEmpty = false := by
      cases hgen : generate_sample_jobs t l n jt rnd with
      | nil => exact absurd hgen hne
      | cons a as => rfl
    refine ⟨generate_sample_jobs t l n jt rnd, hne, Or.inr rfl, ?_⟩
    simp only [hA, if_true, hS]
    simp
  · have hne : (adapterPhase cfg t l n jt js adz).1 ≠ [] := by
      intro h
      rw [h] at hA
      exact hA rfl
    refine ⟨(adapterPhase cfg t l n jt js adz).1, hne, Or.inl rfl, ?_⟩
    simp [hA]

end JobSearch

namespace JobSearch

/-! ### Event bookkeeping of the aggregator -/

theorem jsearchPhase_events (cfg : Credentials) (t l : String) (n : Nat)
    (jt : Option String) (js : JsearchResp) :
    (jsearchPhase cfg t l n jt js).2 =
      if credTruthy cfg.rapidapi_key then [Event.jsearchCall] else [] := by
  simp only [jsearchPhase]
  split <;> rfl

theorem adapterPhase_events (cfg : Credentials) (t l : String) (n : Nat)
    (jt : Option String) (js : JsearchResp) (adz : AdzunaResp) :
    (adapterPhase cfg t l n jt js adz).2 =
      (jsearchPhase cfg t l n jt js).2 ++
        (if credTruthy cfg.adzuna_app_id ∧ credTruthy cfg.adzuna_app_key ∧
            (jsearchPhase cfg t l n jt js).1.length < n then
          [Event.adzunaCall]
        else []) := by
  simp only [adapterPhase]
  split <;> simp

theorem search_jobs_events (cfg : Credentials) (t l : String) (n : Nat)
    (jt : Option String) (js : JsearchResp) (adz : AdzunaResp)
    (rnd : Nat → SampleChoice) :
    (search_jobs cfg t l n jt js adz rnd).2 =
      (adapterPhase cfg t l n jt js adz).2 ++
        (if (adapterPhase cfg t l n jt js adz).1.isEmpty then
          (if ¬ credTruthy cfg.rapidapi_key ∧
              ¬ (credTruthy cfg.adzuna_app_id ∧ credTruthy cfg.adzuna_app_key) then
            [Event.warnNoApiKeys]
          else []) ++ [Event.sampleGen] ++
            (if (generate_sample_jobs t l n jt rnd).isEmpty then
              [Event.warnNoJobs]
            else [])
        else []) := by
  simp only [search_jobs]
  by_cases hA : (adapterPhase cfg t l n jt js adz).1.isEmpty
  · by_cases hS : (generate_sample_jobs t l n jt rnd).isEmpty
    · simp [hA, hS]
    · simp only [hA, Bool.not_eq_true] at *
      simp [hA, hS]
  · simp [hA]

theorem generate_sample_jobs_isEmpty (t l : String) (n : Nat) (jt : Option String)
    (rnd : Nat → SampleChoice) :
    (generate_sample_jobs t l n jt rnd).isEmpty = decide (min n 20 = 0) := by
  by_cases h : min n 20 = 0
  · have hnil : generate_sample_jobs t l n jt rnd = [] :=
      List.length_eq_zero.mp (by rw [generate_sample_jobs_length]; exact h)
    simp [hnil, h]
  · have hne : generate_sample_jobs t l n jt rnd ≠ [] := by
      intro hnil
      have hlen := generate_sample_jobs_length t l n jt rnd
      rw [hnil] at hlen
      simp at hlen
      omega
    have hf : (generate_sample_jobs t l n jt rnd).isEmpty = false := by
      cases hgen : generate_sample_jobs t l n jt rnd with
      | nil => exact absurd hgen hne
      | cons a as => rfl
    simp [hf, h]

end JobSearch

namespace JobSearch

/-! ### Claim C9: salary formatting templates -/

/-- C9 counterexample: the Adzuna formatter emits the fixed suffix
`"yearly"`, not the `"... per period"` template the claim states for both
formatters. -/
theorem adzuna_salary_suffix_counterexample :
    format_salary_adzuna { salary_min := some 80000, salary_max := some 120000 } =
      "$80,000 - $120,000 yearly" ∧
    "$80,000 - $120,000 yearly" ≠ "$80,000 - $120,000 per year" := by decide

/-- C9 (amended): for non-zero bounds the JSearch formatter follows the
precedence both/min/max/neither with templates `$min - $max per period`,
`$min+ per period`, `Up to $max per period`, `Salary not specified`
(period defaulting to `year`), while the Adzuna formatter follows the same
precedence with the fixed suffix `yearly` and no `per`; amounts carry
thousands separators. -/
theorem salary_formatter_templates (mn mx : Int) (p : String)
    (hm : mn ≠ 0) (hM : mx ≠ 0) :
    format_salary_jsearch
      { job_min_salary := some mn, job_max_salary := some mx,
        job_salary_period := some p } =
      "$" ++ commaInt mn ++ " - $" ++ commaInt mx ++ " per " ++ p ∧
    format_salary_jsearch { job_min_salary := some mn, job_salary_period := some p } =
      "$" ++ commaInt mn ++ "+ per " ++ p ∧
    format_salary_jsearch { job_max_salary := some mx, job_salary_period := some p } =
      "Up to $" ++ commaInt mx ++ " per " ++ p ∧
    format_salary_jsearch { job_salary_period := some p } = "Salary not specified" ∧
    format_salary_jsearch { job_min_salary := some mn, job_max_salary := some mx } =
      "$" ++ commaInt mn ++ " - $" ++ commaInt mx ++ " per year" ∧
    format_salary_adzuna { salary_min := some mn, salary_max := some mx } =
      "$" ++ commaInt mn ++ " - $" ++ commaInt mx ++ " yearly" ∧
    format_salary_adzuna { salary_min := some mn } = "$" ++ commaInt mn ++ "+ yearly" ∧
    format_salary_adzuna { salary_max := some mx } = "Up to $" ++ commaInt mx ++ " yearly" ∧
    format_salary_adzuna {} = "Salary not specified" := by
  refine ⟨?_, ?_, ?_, ?_, ?_, ?_, ?_, ?_, ?_⟩ <;>
    simp [format_salary_jsearch, format_salary_adzuna, salTruthy, hm, hM,
      String.append_assoc, show (" per " : String) ++ "year" = " per year" from rfl]

/-- C9 witness: the amended formatter templates at the worked example of
the specification. -/
theorem salary_formatter_templates_witness :
    format_salary_jsearch
      { job_min_salary := some 80000, job_max_salary := some 120000,
        job_salary_period := some "year" } = "$80,000 - $120,000 per year" ∧
    format_salary_adzuna { salary_min := some 80000, salary_max := some 120000 } =
      "$80,000 - $120,000 yearly" := by
  have h := salary_formatter_templates 80000 120000 "year" (by decide) (by decide)
  refine ⟨?_, ?_⟩
  · rw [h.1]; decide
  · rw [h.2.2.2.2.2.1]; decide

/-! ### Claim C10: zero salary bounds are treated as absent -/

/-- C10: the formatters branch on truthiness, so a bound equal to 0 is
treated exactly like an absent bound in both adapters, and no `$0` bound
is ever formatted. -/
theorem salary_zero_treated_absent (m M : Int) (p : String)
    (hm : m ≠ 0) (hM : M ≠ 0) :
    format_salary_jsearch
      { job_min_salary := some 0, job_max_salary := some M,
        job_salary_period := some p } = "Up to $" ++ commaInt M ++ " per " ++ p ∧
    format_salary_jsearch
      { job_min_salary := some m, job_max_salary := some 0,
        job_salary_period := some p } = "$" ++ commaInt m ++ "+ per " ++ p ∧
    format_salary_jsearch
      { job_min_salary := some 0, job_max_salary := some 0,
        job_salary_period := some p } = "Salary not specified" ∧
    format_salary_adzuna { salary_min := some 0, salary_max := some M } =
      "Up to $" ++ commaInt M ++ " yearly" ∧
    format_salary_adzuna { salary_min := some m, salary_max := some 0 } =
      "$" ++ commaInt m ++ "+ yearly" ∧
    format_salary_adzuna { salary_min := some 0, salary_max := some 0 } =
      "Salary not specified" := by
  refine ⟨?_, ?_, ?_, ?_, ?_, ?_⟩ <;>
    simp [format_salary_jsearch, format_salary_adzuna, salTruthy, hm, hM]

/-- C10 witness: zero bounds at concrete values. -/
theorem salary_zero_treated_absent_witness :
    format_salary_jsearch
      { job_min_salary := some 0, job_max_salary := some 120000,
        job_salary_period := some "year" } = "Up to $120,000 per year" ∧
    format_salary_adzuna { salary_min := some 0, salary_max := some 0 } =
      "Salary not specified" := by
  have h := salary_zero_treated_absent 80000 120000 "year" (by decide) (by decide)
  refine ⟨?_, ?_⟩
  · rw [h.1]; decide
  · rw [h.2.2.2.2.2]

/-! ### Claim C4: the skill extractor does not validate its input -/

/-- C4 counterexample: on an empty resume text the completion capability
is still invoked, and with a successful completion the result is not the
empty list. -/
theorem empty_resume_still_calls_llm :
    (extract_skills_from_resume (.ok (some "Python, SQL")) "").2 = true ∧
    (extract_skills_from_resume (.ok (some "Python, SQL")) "").1 = ["Python", "SQL"] := by
  decide

/-- C4 (amended): `extract_skills_from_resume` performs no emptiness check
on the resume text: the completion call is made for every input, the
result depends only on the completion response, and at most 15 skills are
returned. -/
theorem extract_skills_always_invokes_llm (resp : LlmResult) (t : String) :
    (extract_skills_from_resume resp t).2 = true ∧
    (extract_skills_from_resume resp t).1.length ≤ 15 ∧
    extract_skills_from_resume resp t = extract_skills_from_resume resp "" := by
  rcases resp with _ | c
  · exact ⟨rfl, by simp [extract_skills_from_resume], rfl⟩
  · rcases c with _ | s
    · exact ⟨rfl, by simp [extract_skills_from_resume], rfl⟩
    · by_cases hs : s = ""
      · subst hs
        exact ⟨rfl, by simp [extract_skills_from_resume], rfl⟩
      · refine ⟨?_, ?_, rfl⟩
        · simp [extract_skills_from_resume, hs]
        · simp only [extract_skills_from_resume, hs, if_false]
          exact List.length_take_le _ _

/-! ### Claim C7: sentinel values for missing provider data -/

/-- C7 counterexample: a JSearch record with both city and state absent
reaches the `search_jobs` output table with an empty-string Location cell,
not an `N/A` sentinel. -/
theorem jsearch_empty_location_counterexample :
    rowGet (((search_jobs ⟨some "k", none, none⟩ "T" "L" 5 none
        (.status 200 (some [{ job_title := some "Dev", employer_name := some "Acme" }]))
        .netError (fun _ => ⟨0, 0, 0, 0, 0, 0⟩)).1.rows.getD 0 (0, [])).2) "Location" =
      some "" := by decide

/-- C7 (amended): every record exposes all eight fields; a field whose
provider datum is absent gets the `N/A` (or `Salary not specified`)
sentinel, except the JSearch Location, which is the stripped comma-join of
city and state and is the empty string when both are absent. -/
theorem adapter_missing_field_sentinels (j : JsearchJob) (a : AdzunaJob) :
    (j.job_title = none → (jsearchRecord j).jobTitle = "N/A") ∧
    (j.employer_name = none → (jsearchRecord j).company = "N/A") ∧
    (j.job_city = none → j.job_state = none → (jsearchRecord j).location = "") ∧
    (j.job_employment_type = none → (jsearchRecord j).jobType = "N/A") ∧
    (j.job_min_salary = none → j.job_max_salary = none →
      (jsearchRecord j).salary = "Salary not specified") ∧
    (j.job_posted_at_datetime_utc = none → (jsearchRecord j).datePosted = "N/A") ∧
    (j.job_apply_link = none → (jsearchRecord j).applyLink = "N/A") ∧
    (jsearchRecord j).source = "JSearch API" ∧
    (a.title = none → (adzunaRecord a).jobTitle = "N/A") ∧
    (a.company_display_name = none → (adzunaRecord a).company = "N/A") ∧
    (a.location_display_name = none → (adzunaRecord a).location = "N/A") ∧
    (a.contract_type = none → (adzunaRecord a).jobType = "N/A") ∧
    (a.salary_min = none → a.salary_max = none →
      (adzunaRecord a).salary = "Salary not specified") ∧
    (a.created = none → (adzunaRecord a).datePosted = "N/A") ∧
    (a.redirect_url = none → (adzunaRecord a).applyLink = "N/A") ∧
    (adzunaRecord a).source = "Adzuna API" := by
  refine ⟨fun h => ?_, fun h => ?_, fun h h2 => ?_, fun h => ?_, fun h h2 => ?_,
    fun h => ?_, fun h => ?_, rfl, fun h => ?_, fun h => ?_, fun h => ?_,
    fun h => ?_, fun h h2 => ?_, fun h => ?_, fun h => ?_, rfl⟩ <;>
    simp_all [jsearchRecord, adzunaRecord, format_salary_jsearch,
      format_salary_adzuna, salTruthy]
  decide

/-- C7 witness: the amended sentinel behavior at records with every
provider field absent. -/
theorem adapter_missing_field_sentinels_witness :
    (jsearchRecord {}).location = "" ∧ (jsearchRecord {}).jobTitle = "N/A" ∧
    (adzunaRecord {}).salary = "Salary not specified" := by
  obtain ⟨h1, h2, h3, h4, h5, h6, h7, h8, h9, h10, h11, h12, h13, h14, h15, h16⟩ :=
    adapter_missing_field_sentinels {} {}
  exact ⟨h3 rfl rfl, h1 rfl, h13 rfl rfl⟩

end JobSearch

namespace JobSearch

/-! ### Claim C1: result budget and canonical columns -/

/-- C1 counterexample: the Adzuna adapter does not truncate the provider
response to the count it was asked for — asked for 1 it returns 2 records,
and the `search_jobs` table then holds 2 rows for a requested count of 1. -/
theorem adzuna_overreturn_counterexample :
    (search_adzuna_api "T" "L" 1 none (.status 200 (some
      [{ title := some "A", created := some "2024" },
       { title := some "B", created := some "2023" }]))).length = 2 ∧
    (search_jobs ⟨none, some "id", some "key"⟩ "T" "L" 1 none .netError
      (.status 200 (some
        [{ title := some "A", created := some "2024" },
         { title := some "B", created := some "2023" }]))
      (fun _ => ⟨0, 0, 0, 0, 0, 0⟩)).1.rows.length = 2 := by decide

/-- C1 (amended): for a positive requested count, and provided the Adzuna
adapter returns no more records than the count this search actually asks
it for — `min(count - JSearch output, 10)`, the bound the provider is
requested to honor via `results_per_page`; the JSearch adapter truncates
by itself, the Adzuna adapter does not — the table returned by
`search_jobs` has at most `count` rows and exactly the eight canonical
columns in their fixed order. -/
theorem search_jobs_budget_and_columns (cfg : Credentials) (t l : String) (n : Nat)
    (jt : Option String) (js : JsearchResp) (adz : AdzunaResp)
    (rnd : Nat → SampleChoice) (hn : 0 < n)
    (hadz : (search_adzuna_api t l
        (min (n - (jsearchPhase cfg t l n jt js).1.length) 10) jt adz).length ≤
      min (n - (jsearchPhase cfg t l n jt js).1.length) 10) :
    (search_jobs cfg t l n jt js adz rnd).1.rows.length ≤ n ∧
    (search_jobs cfg t l n jt js adz rnd).1.cols = canonicalCols := by
  obtain ⟨recs, hne, hsrc, heq⟩ := search_jobs_result cfg t l n jt js adz rnd hn
  have hlen : recs.length ≤ n := by
    rcases hsrc with rfl | rfl
    · exact adapterPhase_length_le cfg t l n jt js adz hadz
    · rw [generate_sample_jobs_length]
      exact min_le_left _ _
  rw [heq]
  exact ⟨le_trans (clean_jobRec_length recs hne) hlen, clean_jobRec_cols recs hne⟩

/-- C1 witness: the amended budget/column theorem at a concrete
Adzuna-only search: asked for `min(5 - 0, 10) = 5` records, the 200
response carries 3, within the asked count, and the table has at most 5
rows with the canonical columns. -/
theorem search_jobs_budget_and_columns_witness :
    (search_jobs ⟨none, some "id", some "key"⟩ "T" "L" 5 none .netError
      (.status 200 (some
        [{ title := some "A", created := some "2024" },
         { title := some "B", created := some "2023" },
         { title := some "C", created := some "2022" }]))
      (fun _ => ⟨0, 0, 0, 0, 0, 0⟩)).1.rows.length ≤ 5 ∧
    (search_jobs ⟨none, some "id", some "key"⟩ "T" "L" 5 none .netError
      (.status 200 (some
        [{ title := some "A", created := some "2024" },
         { title := some "B", created := some "2023" },
         { title := some "C", created := some "2022" }]))
      (fun _ => ⟨0, 0, 0, 0, 0, 0⟩)).1.cols = canonicalCols :=
  search_jobs_budget_and_columns ⟨none, some "id", some "key"⟩ "T" "L" 5 none
    .netError
    (.status 200 (some
      [{ title := some "A", created := some "2024" },
       { title := some "B", created := some "2023" },
       { title := some "C", created := some "2022" }]))
    (fun _ => ⟨0, 0, 0, 0, 0, 0⟩) (by decide) (by decide)

/-! ### Claim C2: no fail-fast on an empty search term -/

/-- C2 counterexample: with an empty search term and no credentials,
`search_jobs` returns a non-empty sample table of 5 rows instead of
failing fast with an empty table. -/
theorem empty_term_returns_sample_table :
    (search_jobs ⟨none, none, none⟩ "" "X" 5 none .netError .netError
      (fun i => ⟨i, i, 0, 0, 0, 0⟩)).1.rows.length = 5 := by decide

/-- C2 (amended): `search_jobs` performs no validation of the search term;
the term influences only record contents, so the attempted network calls
and emitted warnings on an empty term are exactly those of any other
term. -/
theorem search_jobs_term_not_validated (cfg : Credentials) (t l : String) (n : Nat)
    (jt : Option String) (js : JsearchResp) (adz : AdzunaResp)
    (rnd : Nat → SampleChoice) :
    (search_jobs cfg "" l n jt js adz rnd).2 =
      (search_jobs cfg t l n jt js adz rnd).2 := by
  rw [search_jobs_events, search_jobs_events]
  have hAP : adapterPhase cfg "" l n jt js adz = adapterPhase cfg t l n jt js adz := rfl
  rw [hAP, generate_sample_jobs_isEmpty, generate_sample_jobs_isEmpty]

/-! ### Claim C3: placeholder credentials are not recognized -/

/-- C3 counterexample: a RapidAPI key equal to the placeholder sentinel
`your_rapidapi_key_here` still triggers the JSearch network call —
`search_jobs` checks only truthiness, the placeholder comparison lives in
the UI status display. -/
theorem placeholder_key_triggers_network_call :
    Event.jsearchCall ∈ (search_jobs ⟨some "your_rapidapi_key_here", none, none⟩
      "T" "L" 5 none .netError .netError (fun _ => ⟨0, 0, 0, 0, 0, 0⟩)).2 := by decide

/-- C3 (amended): an adapter is skipped exactly when its credentials are
Python-falsy (absent or empty string): the JSearch call happens iff the
RapidAPI key is truthy, and the Adzuna call iff both its credentials are
truthy and the JSearch step left the budget unmet. -/
theorem adapter_calls_iff_truthy_credentials (cfg : Credentials) (t l : String)
    (n : Nat) (jt : Option String) (js : JsearchResp) (adz : AdzunaResp)
    (rnd : Nat → SampleChoice) :
    (Event.jsearchCall ∈ (search_jobs cfg t l n jt js adz rnd).2 ↔
      credTruthy cfg.rapidapi_key = true) ∧
    (Event.adzunaCall ∈ (search_jobs cfg t l n jt js adz rnd).2 ↔
      (credTruthy cfg.adzuna_app_id = true ∧ credTruthy cfg.adzuna_app_key = true ∧
        (jsearchPhase cfg t l n jt js).1.length < n)) := by
  rw [search_jobs_events, adapterPhase_events, jsearchPhase_events]
  constructor <;> (split_ifs <;> simp_all)

/-! ### Claim C5: samples are no below-budget top-up -/

/-- C5 counterexample: one JSearch record against a requested count of 5
yields a 1-row table with no sample generation — the generator does not
top up a non-empty below-budget result. -/
theorem below_budget_no_topup :
    (search_jobs ⟨some "k", none, none⟩ "T" "L" 5 none
      (.status 200 (some [{ job_title := some "Dev" }])) .netError
      (fun _ => ⟨0, 0, 0, 0, 0, 0⟩)).1.rows.length = 1 ∧
    Event.sampleGen ∉ (search_jobs ⟨some "k", none, none⟩ "T" "L" 5 none
      (.status 200 (some [{ job_title := some "Dev" }])) .netError
      (fun _ => ⟨0, 0, 0, 0, 0, 0⟩)).2 := by decide

/-- C5 (amended): the sample data generator runs exactly when the combined
adapter output is empty, never as a top-up of a non-empty below-budget
result. -/
theorem samples_only_when_adapters_empty (cfg : Credentials) (t l : String)
    (n : Nat) (jt : Option String) (js : JsearchResp) (adz : AdzunaResp)
    (rnd : Nat → SampleChoice) :
    Event.sampleGen ∈ (search_jobs cfg t l n jt js adz rnd).2 ↔
      (adapterPhase cfg t l n jt js adz).1 = [] := by
  rw [search_jobs_events, adapterPhase_events, jsearchPhase_events]
  by_cases hA : (adapterPhase cfg t l n jt js adz).1.isEmpty
  · have h0 : (adapterPhase cfg t l n jt js adz).1 = [] := List.isEmpty_iff.mp hA
    simp [hA, h0]
  · have h0 : (adapterPhase cfg t l n jt js adz).1 ≠ [] := by
      intro h
      rw [h] at hA
      exact hA rfl
    simp only [hA, Bool.false_eq_true, if_false, List.append_nil]
    simp [h0]

end JobSearch

namespace JobSearch

/-! ### Claim C6: the zero-provider sample table -/

/-- C6 counterexample: with the all-zero random stream every sample record
shares its (title, company) pair, so the deduplicated table has 1 row, not
the exactly 5 the claim states (the no-API-keys warning is still shown). -/
theorem sample_dedup_shrinks_table :
    (search_jobs ⟨none, none, none⟩ "Engineer" "X" 5 (some "Any") .netError .netError
      (fun _ => ⟨0, 0, 0, 0, 0, 0⟩)).1.rows.length = 1 ∧
    Event.warnNoApiKeys ∈ (search_jobs ⟨none, none, none⟩ "Engineer" "X" 5 (some "Any")
      .netError .netError (fun _ => ⟨0, 0, 0, 0, 0, 0⟩)).2 := by decide

/-- C6 (amended): with zero configured providers,
`search_jobs "Engineer" "X" 5 "Any"` warns that no API keys are
configured and returns at most 5 records (exactly 5 unless random draws
collide on a (title, company) pair), each carrying one of the four
sample-source labels, which are distinct from the two provider labels. -/
theorem no_providers_sample_table (js : JsearchResp) (adz : AdzunaResp)
    (rnd : Nat → SampleChoice) :
    (search_jobs ⟨none, none, none⟩ "Engineer" "X" 5 (some "Any")
      js adz rnd).1.rows.length ≤ 5 ∧
    Event.warnNoApiKeys ∈ (search_jobs ⟨none, none, none⟩ "Engineer" "X" 5 (some "Any")
      js adz rnd).2 ∧
    ∀ p ∈ (search_jobs ⟨none, none, none⟩ "Engineer" "X" 5 (some "Any")
        js adz rnd).1.rows,
      ∃ s ∈ sampleSources, rowGet p.2 "Source" = some s := by
  have hjs : search_jobs ⟨none, none, none⟩ "Engineer" "X" 5 (some "Any") js adz rnd =
      (clean_job_data (dfOfRows
        ((generate_sample_jobs "Engineer" "X" 5 (some "Any") rnd).map jobRecRow)),
       [Event.warnNoApiKeys, Event.sampleGen]) := rfl
  have hne : generate_sample_jobs "Engineer" "X" 5 (some "Any") rnd ≠ [] :=
    generate_sample_jobs_ne_nil _ _ _ _ _ (by norm_num)
  rw [hjs]
  refine ⟨?_, by simp, ?_⟩
  · refine le_trans (clean_jobRec_length _ hne) ?_
    rw [generate_sample_jobs_length]
    decide
  · intro p hp
    obtain ⟨j, hj, hpj⟩ := clean_jobRec_mem _ hne p hp
    refine ⟨j.source, generate_sample_jobs_source _ _ _ _ _ j hj, ?_⟩
    rw [hpj]
    rfl

/-- C6 witness: the amended zero-provider theorem at a concrete random
stream, exhibiting the warning and a sample-source label on row 0. -/
theorem no_providers_sample_table_witness :
    Event.warnNoApiKeys ∈ (search_jobs ⟨none, none, none⟩ "Engineer" "X" 5 (some "Any")
      .netError .netError (fun i => ⟨i, i, 0, 0, 0, 0⟩)).2 ∧
    ∃ s ∈ sampleSources,
      rowGet (((search_jobs ⟨none, none, none⟩ "Engineer" "X" 5 (some "Any")
        .netError .netError (fun i => ⟨i, i, 0, 0, 0, 0⟩)).1.rows.getD 0 (0, [])).2)
        "Source" = some s := by
  have h := no_providers_sample_table .netError .netError (fun i => ⟨i, i, 0, 0, 0, 0⟩)
  exact ⟨h.2.1, h.2.2 _ (getD_mem_of_lt _ 0 (0, []) (by decide))⟩

/-! ### Claim C8: what the normalizer actually does -/

/-- C8 counterexample: a record whose Location cell is missing keeps a
missing cell after normalization (no `N/A` fill step exists), and on empty
input the output frame has the single column `Salary`, not the eight
canonical columns. -/
theorem normalizer_no_na_fill_counterexample :
    rowGet (((clean_job_data ⟨canonicalCols,
        [(0, jobRecRow ⟨"T", "C", "L", "F", "S", "D", "A", "X"⟩),
         (1, [("Job Title", "T2"), ("Company", "C2"), ("Job Type", "F"),
              ("Salary", "S"), ("Date Posted", "E"), ("Apply Link", "A"),
              ("Source", "X")])]⟩).rows.getD 0 (0, [])).2) "Location" = none ∧
    (clean_job_data ⟨[], []⟩).cols = ["Salary"] ∧
    ["Salary"] ≠ canonicalCols := by decide

/-- C8 (amended): on a canonical-column frame the normalizer keeps the
canonical columns, drops duplicate (Job Title, Company) rows keeping each
first occurrence, sorts descending by the raw Date Posted string
(missing dates last), and reindexes densely from 0; it has no missing-cell
fill step, and on empty input it returns a frame whose only column is
`Salary`. -/
theorem clean_job_data_normalizer_steps (rows : List (Nat × Row)) :
    (clean_job_data ⟨canonicalCols, rows⟩).cols = canonicalCols ∧
    (clean_job_data ⟨canonicalCols, rows⟩).rows.map Prod.fst =
      List.range (clean_job_data ⟨canonicalCols, rows⟩).rows.length ∧
    (clean_job_data ⟨canonicalCols, rows⟩).rows.Pairwise dateGe ∧
    (clean_job_data ⟨canonicalCols, rows⟩).rows.Pairwise
      (fun a b => dedupKey a.2 ≠ dedupKey b.2) ∧
    (∀ p ∈ (clean_job_data ⟨canonicalCols, rows⟩).rows,
      ∃ q ∈ (rows.map fun x => (x.1, selectCanonical x.2)),
        ((rows.map fun x => (x.1, selectCanonical x.2)).filter
          (fun x => decide (dedupKey x.2 = dedupKey q.2))).head? = some q ∧
        p.2 = q.2) ∧
    clean_job_data ⟨[], []⟩ = ⟨["Salary"], []⟩ := by
  rw [clean_job_data_canonical_rows]
  refine ⟨rfl, resetIndex_map_fst _, ?_, ?_, ?_, by decide⟩
  · exact resetIndex_pairwise (fun a b i j h => h) (List.sorted_insertionSort dateGe _)
  · refine resetIndex_pairwise (fun a b i j h => h) ?_
    have hperm := List.perm_insertionSort dateGe
      (dedupRows [] (rows.map fun x => (x.1, selectCanonical x.2)))
    exact (hperm.pairwise_iff (fun h => h.symm)).mpr (dedupRows_pairwise [] _)
  · intro p hp
    obtain ⟨q, hq, hpq⟩ := mem_resetIndex hp
    have hq1 : q ∈ dedupRows [] (rows.map fun x => (x.1, selectCanonical x.2)) :=
      (List.perm_insertionSort dateGe _).mem_iff.mp hq
    exact ⟨q, (dedupRows_sublist _ _).subset hq1, dedupRows_first [] _ q hq1, hpq⟩

/-- C8 witness: the first-occurrence clause of the amended normalizer
theorem at a concrete one-row frame. -/
theorem clean_job_data_normalizer_steps_witness :
    ∃ q ∈ ([((0 : Nat), jobRecRow ⟨"T", "C", "L", "F", "S", "D", "A", "X"⟩)].map
        fun x => (x.1, selectCanonical x.2)),
      (([((0 : Nat), jobRecRow ⟨"T", "C", "L", "F", "S", "D", "A", "X"⟩)].map
          fun x => (x.1, selectCanonical x.2)).filter
        (fun x => decide (dedupKey x.2 = dedupKey q.2))).head? = some q ∧
      ((clean_job_data ⟨canonicalCols,
        [(0, jobRecRow ⟨"T", "C", "L", "F", "S", "D", "A", "X"⟩)]⟩).rows.getD 0
          (0, [])).2 = q.2 :=
  (clean_job_data_normalizer_steps
    [(0, jobRecRow ⟨"T", "C", "L", "F", "S", "D", "A", "X"⟩)]).2.2.2.2.1 _
    (getD_mem_of_lt _ 0 (0, []) (by decide))

end JobSearch
